import Mathlib

/-!
# Verification of the minimio selector library

Shallow embedding of the cross-platform event-queue library (epoll / kqueue /
IOCP backends) and proofs about its registration, wake-up and read logic.

Conventions of the embedding:
* Machine integers are `Nat` (unsigned) or `Int` (signed); casts that can wrap
  in the source are written with an explicit `% 2 ^ w`.
* Syscall outcomes are external nondeterminism; each function that performs a
  fallible syscall takes the outcome of that syscall as an extra parameter
  (`Option Int` = `none` for success, `some code` for an OS error code).
* A function returns, besides its result, the list of syscalls it performed,
  so that "performs no syscall" claims are statable.
* `unimplemented!()` panics; panics are modelled as a third constructor of the
  result type `Outcome`.
-/

namespace Minimio

/-- `Token`: the `usize` correlation token (spec §3). -/
abbrev Token := Nat

/-- The error values the library constructs or propagates:
`interrupted msg` models `io::Error::new(io::ErrorKind::Interrupted, msg)`,
`osError code` models `io::Error::last_os_error()` with the given raw code. -/
inductive IoErr where
  | interrupted (msg : String)
  | osError (code : Int)
  deriving Repr, DecidableEq

/-- Result of running a library call: normal return, `io::Result` error, or a
panic (`unimplemented!()` expands to a panic with message "not implemented"). -/
inductive Outcome (α : Type) where
  | ok (a : α)
  | err (e : IoErr)
  | panicked (msg : String)
  deriving Repr, DecidableEq

/-- Modelled from the spec: the `Interests` bitset is absent from `src/`
(`lib.rs` does not define it); spec §3 describes it as "a bitset with two
bits: `READABLE`, `WRITABLE`. Combinable". We model it as a `Nat` bitset with
`READABLE` = bit 0 and `WRITABLE` = bit 1. -/
abbrev Interests := Nat

/-- Modelled from the spec: the `READABLE` interest bit. -/
def Interests.READABLE : Interests := 1

/-- Modelled from the spec: the `WRITABLE` interest bit. -/
def Interests.WRITABLE : Interests := 2

/-- Modelled from the spec: `interests.is_readable()` tests the READABLE bit. -/
def Interests.is_readable (i : Interests) : Bool := i.testBit 0

/-- Modelled from the spec: `interests.is_writable()` tests the WRITABLE bit. -/
def Interests.is_writable (i : Interests) : Bool := i.testBit 1

/-- A Rust `Vec` as used for the `Events` buffer: a capacity and the list of
initialized elements (`len = data.length ≤ cap` in any state the program
produces; `set_len` past the capacity is exactly the violation claim C2 is
about, so the model does not bake the bound in). -/
structure RVec (α : Type) where
  cap : Nat
  data : List α
  deriving Repr, DecidableEq

end Minimio

namespace Minimio.linux

/-- `ffi::EPOLL_CTL_ADD` (src/linux.rs). -/
def EPOLL_CTL_ADD : Int := 1

/-- `ffi::EPOLLIN` (src/linux.rs). -/
def EPOLLIN : Int := 0x1

/-- `ffi::EPOLLONESHOT` (src/linux.rs). -/
def EPOLLONESHOT : Int := 0x40000000

/-- `ffi::Event`: the epoll event record `{ events: u32, epoll_data: usize }`
(src/linux.rs). -/
structure Event where
  events : Nat
  epoll_data : Nat
  deriving Repr, DecidableEq

/-- `ffi::Event::new(events: i32, id: usize)`: the `i32 → u32` cast is an
explicit wrap. -/
def Event.new (events : Int) (id : Nat) : Event :=
  { events := (events % 2 ^ 32).toNat, epoll_data := id }

/-- `ffi::Event::data`. -/
def Event.data (e : Event) : Nat := e.epoll_data

/-- `Event::id` (src/linux.rs): returns `self.data()`. -/
def Event.id (e : Event) : Token := e.data

/-- The syscalls the linux backend can issue through its safe wrappers. -/
inductive Syscall where
  | epoll_ctl (epfd : Int) (op : Int) (fd : Int) (ev : Event)
  | eventfd (initva : Nat) (flags : Int)
  | epoll_wait (epfd : Int) (maxevents : Int) (timeout : Int)
  deriving Repr, DecidableEq

/-- `Registrator { fd, is_poll_dead }` (src/linux.rs); the `Arc<AtomicBool>`
is modelled by the boolean value it currently holds. -/
structure Registrator where
  fd : Int
  is_poll_dead : Bool
  deriving Repr, DecidableEq

/-- `Registrator::register` (src/linux.rs).  `ctlRes` is the outcome of the
`epoll_ctl` syscall if one is made (`none` = success).  Returns the outcome
and the list of syscalls performed, in order. -/
def Registrator.register (r : Registrator) (ctlRes : Option Int)
    (streamFd : Int) (token : Token) (interests : Interests) :
    Outcome Unit × List Syscall :=
  if r.is_poll_dead then
    (.err (.interrupted "Poll instance closed."), [])
  else
    if interests.is_readable then
      let event := Event.new (Int.lor EPOLLIN EPOLLONESHOT) token
      let calls := [Syscall.epoll_ctl r.fd EPOLL_CTL_ADD streamFd event]
      match ctlRes with
      | some code => (.err (.osError code), calls)
      | none =>
        if interests.is_writable then (.panicked "not implemented", calls)
        else (.ok (), calls)
    else
      if interests.is_writable then (.panicked "not implemented", [])
      else (.ok (), [])

/-- `Registrator::close_loop` (src/linux.rs).  `efdRes` is the outcome of the
`eventfd(1, 0)` syscall (`Except.ok fd` on success), `ctlRes` the outcome of
the subsequent `epoll_ctl`.  Returns the outcome, the new value of the shared
`is_poll_dead` flag, and the syscalls performed. -/
def Registrator.close_loop (r : Registrator) (efdRes : Except Int Int)
    (ctlRes : Option Int) : Outcome Unit × Bool × List Syscall :=
  if r.is_poll_dead then
    (.err (.interrupted "Poll instance closed."), true, [])
  else
    match efdRes with
    | .error code => (.err (.osError code), true, [Syscall.eventfd 1 0])
    | .ok wake_fd =>
      let event := Event.new EPOLLIN 0
      let calls := [Syscall.eventfd 1 0,
                    Syscall.epoll_ctl r.fd EPOLL_CTL_ADD wake_fd event]
      match ctlRes with
      | some code => (.err (.osError code), true, calls)
      | none => (.ok (), true, calls)

/-- One registration as recorded by the kernel: the fd, the event mask and the
user-data word of the submitted `epoll_event`. -/
structure EpollReg where
  fd : Int
  mask : Nat
  data : Nat
  deriving Repr, DecidableEq

/-- Kernel side of `EPOLL_CTL_ADD`: interpret a syscall trace as the list of
registrations added to the epoll instance. -/
def applyCalls : List Syscall → List EpollReg → List EpollReg
  | [], regs => regs
  | Syscall.epoll_ctl _ _ fd ev :: rest, regs =>
      applyCalls rest (regs ++ [{ fd := fd, mask := ev.events, data := ev.epoll_data }])
  | _ :: rest, regs => applyCalls rest regs

/-- Kernel contract of `epoll_wait`: a delivered `epoll_event` echoes the
user-data word of the registration verbatim and carries the ready-event bits
chosen by the kernel. -/
def epollDeliver (reg : EpollReg) (readyBits : Nat) : Event :=
  { events := readyBits % 2 ^ 32, epoll_data := reg.data }

/-- `Selector::select` (src/linux.rs): clears the vector, calls
`epoll_wait(self.fd, events, 1024, timeout)` — `maxevents` is the literal
`1024`, not the vector's capacity — and on success `set_len`s the vector to
the number of events the kernel reported.  `fired` is the kernel-chosen list
of (registration, ready-bits) pairs that are ready; the kernel writes at most
`maxevents` of them into the caller's buffer. -/
def Selector.select (events : RVec Event) (fired : List (EpollReg × Nat)) :
    RVec Event :=
  let maxevents : Nat := 1024
  let written := (fired.take maxevents).map fun p => epollDeliver p.1 p.2
  { cap := events.cap, data := written }

end Minimio.linux

namespace Minimio.macos

/-- `ffi::EVFILT_READ` (src/macos.rs). -/
def EVFILT_READ : Int := -1

/-- `ffi::EVFILT_TIMER` (src/macos.rs). -/
def EVFILT_TIMER : Int := -7

/-- `ffi::EV_ADD` (src/macos.rs). -/
def EV_ADD : Nat := 0x1

/-- `ffi::EV_ENABLE` (src/macos.rs). -/
def EV_ENABLE : Nat := 0x4

/-- `ffi::EV_ONESHOT` (src/macos.rs). -/
def EV_ONESHOT : Nat := 0x10

/-- `ffi::EV_CLEAR` (src/macos.rs). -/
def EV_CLEAR : Nat := 0x20

/-- `ffi::Kevent { ident: u64, filter: i16, flags: u16, fflags: u32, data: i64,
udata: u64 }` (src/macos.rs). -/
structure Kevent where
  ident : Nat
  filter : Int
  flags : Nat
  fflags : Nat
  data : Int
  udata : Nat
  deriving Repr, DecidableEq

/-- `ffi::Event::new_read_event(fd: RawFd, id: u64)` (src/macos.rs): the
`i32 → u64` cast of the fd is an explicit wrap. -/
def Kevent.new_read_event (fd : Int) (id : Nat) : Kevent :=
  { ident := (fd % 2 ^ 64).toNat
    filter := EVFILT_READ
    flags := EV_ADD ||| EV_ENABLE ||| EV_ONESHOT
    fflags := 0
    data := 0
    udata := id }

/-- `ffi::Event::new_wakeup_event()` (src/macos.rs). -/
def Kevent.new_wakeup_event : Kevent :=
  { ident := 0
    filter := EVFILT_TIMER
    flags := EV_ADD ||| EV_ENABLE ||| EV_CLEAR
    fflags := 0
    data := 0
    udata := 0 }

/-- `Event::id` (src/macos.rs): `self.udata as usize`. -/
def Kevent.id (e : Kevent) : Token := e.udata

/-- The kqueue backend's `kevent` syscall as issued by the library:
the changelist passed in, the requested maximum size of the eventlist, and
the timeout. -/
inductive Syscall where
  | kevent (kq : Int) (changelist : List Kevent) (nevents : Int)
      (timeout_ms : Option Int)
  deriving Repr, DecidableEq

/-- `Registrator { kq, is_poll_dead }` (src/macos.rs). -/
structure Registrator where
  kq : Int
  is_poll_dead : Bool
  deriving Repr, DecidableEq

/-- `Registrator::register` (src/macos.rs).  `kevRes` is the outcome of the
`kevent` syscall if one is made (`none` = success). -/
def Registrator.register (r : Registrator) (kevRes : Option Int)
    (streamFd : Int) (token : Token) (interests : Interests) :
    Outcome Unit × List Syscall :=
  if r.is_poll_dead then
    (.err (.interrupted "Poll instance closed."), [])
  else
    if interests.is_readable then
      let event := Kevent.new_read_event streamFd token
      let calls := [Syscall.kevent r.kq [event] 0 none]
      match kevRes with
      | some code => (.err (.osError code), calls)
      | none =>
        if interests.is_writable then (.panicked "not implemented", calls)
        else (.ok (), calls)
    else
      if interests.is_writable then (.panicked "not implemented", [])
      else (.ok (), [])

/-- `Registrator::close_loop` (src/macos.rs). Returns the outcome, the new
value of the shared `is_poll_dead` flag, and the syscalls performed. -/
def Registrator.close_loop (r : Registrator) (kevRes : Option Int) :
    Outcome Unit × Bool × List Syscall :=
  if r.is_poll_dead then
    (.err (.interrupted "Poll instance closed."), true, [])
  else
    let event := Kevent.new_wakeup_event
    let calls := [Syscall.kevent r.kq [event] 0 none]
    match kevRes with
    | some code => (.err (.osError code), true, calls)
    | none => (.ok (), true, calls)

/-- Kernel contract of `kevent` delivery: a delivered event for a registration
echoes `ident`, `filter` and `udata`; the kernel fills `flags`, `fflags` and
`data` with status information. -/
def keventDeliver (reg : Kevent) (kflags kfflags : Nat) (kdata : Int) : Kevent :=
  { ident := reg.ident
    filter := reg.filter
    flags := kflags
    fflags := kfflags
    data := kdata
    udata := reg.udata }

/-- `Selector::select` (src/macos.rs): reads `n_events := events.capacity()`,
clears the vector, calls `kevent` with the vector as eventlist and
`n_events` as its size, and `set_len`s to the count the kernel returned.
`fired` is the kernel-chosen list of ready events; the kernel writes at most
`n_events` of them. -/
def Selector.select (events : RVec Kevent) (fired : List Kevent) :
    RVec Kevent :=
  let n_events := events.cap
  { cap := events.cap, data := fired.take n_events }

end Minimio.macos

namespace Minimio.windows

/-- `ffi::Operation { wsaoverlapped, token }` (src/windows.rs): the
`WSAOVERLAPPED` header is zeroed at construction and only the kernel writes
it, so the model keeps the token field. -/
structure Operation where
  token : Token
  deriving Repr, DecidableEq

/-- `Operation::new(token)` (src/windows.rs). -/
def Operation.new (token : Token) : Operation := { token := token }

/-- `ffi::OVERLAPPED_ENTRY` (src/windows.rs): `lp_overlapped` is a raw pointer
to the `Operation` record handed to `WSARecv`; the pointed-to record is
modelled directly, `none` standing for a null pointer. -/
structure OVERLAPPED_ENTRY where
  lp_overlapped : Option Operation
  bytes_transferred : Nat
  deriving Repr, DecidableEq

/-- `OVERLAPPED_ENTRY::id` (src/windows.rs): dereferences `lp_overlapped` as
an `Operation` and reads `token`.  Dereferencing a null pointer is undefined
behaviour in the source; the model returns 0 there (no claim exercises it). -/
def OVERLAPPED_ENTRY.id (e : OVERLAPPED_ENTRY) : Token :=
  match e.lp_overlapped with
  | some operation => operation.token
  | none => 0

/-- The syscalls the IOCP backend issues through its safe wrappers. -/
inductive Syscall where
  | createIoCompletionPort (socket : Int) (port : Int) (key : Nat)
  | wsaRecv (socket : Int) (op : Operation)
  | postQueuedCompletionStatus (port : Int) (bytes : Nat) (key : Nat)
  deriving Repr, DecidableEq

/-- `Registrator { completion_port, is_poll_dead }` (src/windows.rs). -/
structure Registrator where
  completion_port : Int
  is_poll_dead : Bool
  deriving Repr, DecidableEq

/-- `Registrator::register` (src/windows.rs).  `cipRes` is the outcome of
`create_io_completion_port`, `recvRes` the outcome of `wsa_recv` (`none`
covers both immediate completion and `WSA_IO_PENDING`, which the wrapper
treats as success).  Returns the outcome, the stream's `operations` list
after the call, and the syscalls performed. -/
def Registrator.register (r : Registrator) (cipRes : Option Int)
    (recvRes : Option Int) (socket : Int) (operations : List Operation)
    (token : Token) (interests : Interests) :
    Outcome Unit × List Operation × List Syscall :=
  if r.is_poll_dead then
    (.err (.interrupted "Poll instance is dead."), operations, [])
  else
    let cipCall := Syscall.createIoCompletionPort socket r.completion_port 0
    match cipRes with
    | some code => (.err (.osError code), operations, [cipCall])
    | none =>
      let op := Operation.new token
      let operations1 := operations ++ [op]
      if interests.is_readable then
        let calls := [cipCall, Syscall.wsaRecv socket op]
        match recvRes with
        | some code => (.err (.osError code), operations1, calls)
        | none => (.ok (), operations1, calls)
      else
        (.panicked "not implemented", operations1, [cipCall])

/-- `Registrator::close_loop` (src/windows.rs): CAS on `is_poll_dead`, then
`post_queued_completion_status(self.completion_port, 0, 0, &mut overlapped)`
with a zeroed `WSAOVERLAPPED`. -/
def Registrator.close_loop (r : Registrator) (postRes : Option Int) :
    Outcome Unit × Bool × List Syscall :=
  if r.is_poll_dead then
    (.err (.interrupted "Poll instance is dead."), true, [])
  else
    let calls := [Syscall.postQueuedCompletionStatus r.completion_port 0 0]
    match postRes with
    | some code => (.err (.osError code), true, calls)
    | none => (.ok (), true, calls)

/-- `ffi::get_queued_completion_status_ex` (src/windows.rs) with the kernel
behind it: on success the kernel removes at most `ul_count` entries from the
port's queue and reports how many; `failCode` is the OS error otherwise. -/
def get_queued_completion_status_ex (queued : List OVERLAPPED_ENTRY)
    (ul_count : Nat) (failCode : Option Int) :
    Except Int (List OVERLAPPED_ENTRY) :=
  match failCode with
  | some code => .error code
  | none => .ok (queued.take ul_count)

/-- `Selector::select` (src/windows.rs): clears the vector, takes
`ul_count := events.capacity()`, calls `get_queued_completion_status_ex`,
maps OS error 258 (`WAIT_TIMEOUT`) to zero entries removed, returns any other
error, and `set_len`s the vector to the number of entries removed. -/
def Selector.select (events : RVec OVERLAPPED_ENTRY)
    (queued : List OVERLAPPED_ENTRY) (failCode : Option Int) :
    Except IoErr Unit × RVec OVERLAPPED_ENTRY :=
  let ul_count := events.cap
  let removed_res := get_queued_completion_status_ex queued ul_count failCode
  match removed_res with
  | .ok entries => (.ok (), { cap := events.cap, data := entries })
  | .error e =>
    if e = 258 then (.ok (), { cap := events.cap, data := [] })
    else (.error (.osError e), { cap := events.cap, data := [] })

/-- The IOCP `TcpStream` state that `read` touches: the internal receive
buffer (filled by the completed `WSARecv`), the read cursor `pos`, and a
count of operations performed on the inner socket (the embedding's way of
recording socket activity; `read` never touches the socket). -/
structure TcpStream where
  buffer : List Nat
  pos : Nat
  innerSocketOps : Nat
  deriving Repr, DecidableEq

/-- `TcpStream::read` (src/windows.rs), translated branch for branch:
`bytes_read` starts at 0, so the branch condition is
`self.buffer.len() - 0 <= buff.len()`.
* First branch: `self.buffer.iter().skip(self.pos).zip(buff)` copies
  `min (buffer.len - pos) buff.len` bytes from the internal buffer starting
  at `pos` into the front of `buff`; `pos` is not changed.
* Second branch: `buff.iter_mut().zip(&self.buffer)` copies
  `min buff.len buffer.len` bytes from the start of the internal buffer
  (index 0, not `pos`) into `buff`, then advances `pos` by that count.
Returns (result, stream after, caller buffer after). -/
def TcpStream.read (s : TcpStream) (buff : List Nat) :
    Except IoErr Nat × TcpStream × List Nat :=
  if s.buffer.length - 0 ≤ buff.length then
    let bytes_read := min (s.buffer.length - s.pos) buff.length
    (.ok bytes_read, s, (s.buffer.drop s.pos).take bytes_read ++ buff.drop bytes_read)
  else
    let bytes_read := min buff.length s.buffer.length
    (.ok bytes_read, { s with pos := s.pos + bytes_read },
      s.buffer.take bytes_read ++ buff.drop bytes_read)

/-- Modelled from the spec (§4.4, §9): the stipulated contract for the IOCP
`TcpStream::read` — copy `min (requested, available-unread)` bytes starting
at the internal cursor `pos` into the caller's buffer, return that count and
advance `pos` by exactly that count. -/
def TcpStream.readContract (s : TcpStream) (buff : List Nat) :
    Except IoErr Nat × TcpStream × List Nat :=
  let n := min buff.length (s.buffer.length - s.pos)
  (.ok n, { s with pos := s.pos + n },
    (s.buffer.drop s.pos).take n ++ buff.drop n)

end Minimio.windows

namespace Minimio.linux

/-- Repeated `close_loop` calls through the same shared flag: each element of
`oracles` gives the syscall outcomes for one call; the flag value is threaded
from call to call.  Returns the final flag and the concatenated syscall
trace. -/
def close_loop_seq (r : Registrator) :
    List (Except Int Int × Option Int) → Bool × List Syscall
  | [] => (r.is_poll_dead, [])
  | o :: rest =>
    let step := r.close_loop o.1 o.2
    let next := close_loop_seq { r with is_poll_dead := step.2.1 } rest
    (next.1, step.2.2 ++ next.2)

/-- Number of wake-posting syscalls (`eventfd` creations) in a trace. -/
def countWakeCalls : List Syscall → Nat
  | [] => 0
  | Syscall.eventfd _ _ :: rest => countWakeCalls rest + 1
  | _ :: rest => countWakeCalls rest

end Minimio.linux

namespace Minimio.macos

/-- The changelist submitted by a `kevent` syscall. -/
def Syscall.changelist : Syscall → List Kevent
  | Syscall.kevent _ cl _ _ => cl

end Minimio.macos

namespace Minimio.windows

/-- Repeated `close_loop` calls through the same shared flag (IOCP). -/
def close_loop_seq (r : Registrator) :
    List (Option Int) → Bool × List Syscall
  | [] => (r.is_poll_dead, [])
  | o :: rest =>
    let step := r.close_loop o
    let next := close_loop_seq { r with is_poll_dead := step.2.1 } rest
    (next.1, step.2.2 ++ next.2)

/-- Number of wake-posting syscalls (`PostQueuedCompletionStatus`) in a
trace. -/
def countWakeCalls : List Syscall → Nat
  | [] => 0
  | Syscall.postQueuedCompletionStatus _ _ _ :: rest => countWakeCalls rest + 1
  | _ :: rest => countWakeCalls rest

end Minimio.windows

namespace Minimio

/-- C2: the claim says every platform's `select` sets the events vector's
length to at most `events.capacity()`.  The linux `Selector::select` passes
the literal `1024` as `maxevents` to `epoll_wait` instead of the vector's
capacity, so with a vector of capacity 1 and two ready registrations the
kernel reports 2 events and `set_len(2)` leaves the vector longer than its
capacity (the kernel also wrote past the 1-slot buffer).  This evaluates the
embedded code at that failing input. -/
theorem C2_linux_select_exceeds_capacity :
    (linux.Selector.select { cap := 1, data := [] }
      [({ fd := 3, mask := 1, data := 10 }, 1),
       ({ fd := 4, mask := 1, data := 11 }, 1)]).cap = 1 ∧
    (linux.Selector.select { cap := 1, data := [] }
      [({ fd := 3, mask := 1, data := 10 }, 1),
       ({ fd := 4, mask := 1, data := 11 }, 1)]).data.length = 2 ∧
    ¬ (linux.Selector.select { cap := 1, data := [] }
      [({ fd := 3, mask := 1, data := 10 }, 1),
       ({ fd := 4, mask := 1, data := 11 }, 1)]).data.length ≤ 1 := by
  decide

/-- C4: on every platform, when `poll_dead` is already `true` a
`Registrator::register` call returns the "interrupted" error, performs no
syscall at all (empty trace, so the kernel queue is unchanged), and leaves
the stream's operations list untouched (IOCP). -/
theorem C4_register_after_close_is_interrupted :
    (∀ (epfd streamFd : Int) (ctlRes : Option Int) (t : Token) (i : Interests),
      linux.Registrator.register { fd := epfd, is_poll_dead := true } ctlRes streamFd t i =
        (.err (.interrupted "Poll instance closed."), [])) ∧
    (∀ (kq streamFd : Int) (kevRes : Option Int) (t : Token) (i : Interests),
      macos.Registrator.register { kq := kq, is_poll_dead := true } kevRes streamFd t i =
        (.err (.interrupted "Poll instance closed."), [])) ∧
    (∀ (port socket : Int) (cipRes recvRes : Option Int)
        (ops : List windows.Operation) (t : Token) (i : Interests),
      windows.Registrator.register { completion_port := port, is_poll_dead := true }
          cipRes recvRes socket ops t i =
        (.err (.interrupted "Poll instance is dead."), ops, [])) := by
  refine ⟨?_, ?_, ?_⟩ <;> intros <;> rfl

/-- C5: the claim (and spec §4.4/§9) stipulate that the IOCP
`TcpStream::read` copies exactly `min (requested, available-unread)` bytes
starting at the internal cursor `pos` and advances `pos` by that count.  The
code diverges on both of its branches:
* internal buffer `[10, 20]`, `pos = 1`, caller buffer of length 1: the code
  takes the long-buffer branch and copies `buffer[0] = 10` (ignoring `pos`),
  while the contract copies `buffer[pos] = 20`;
* same stream, caller buffer of length 2: the code takes the short-buffer
  branch, copies `buffer[1] = 20` correctly but leaves `pos = 1`, while the
  contract advances `pos` to 2. -/
theorem C5_iocp_read_diverges_from_contract :
    (windows.TcpStream.read { buffer := [10, 20], pos := 1, innerSocketOps := 0 } [0] =
      (.ok 1, { buffer := [10, 20], pos := 2, innerSocketOps := 0 }, [10]) ∧
     windows.TcpStream.readContract { buffer := [10, 20], pos := 1, innerSocketOps := 0 } [0] =
      (.ok 1, { buffer := [10, 20], pos := 2, innerSocketOps := 0 }, [20])) ∧
    (windows.TcpStream.read { buffer := [10, 20], pos := 1, innerSocketOps := 0 } [0, 0] =
      (.ok 1, { buffer := [10, 20], pos := 1, innerSocketOps := 0 }, [20, 0]) ∧
     windows.TcpStream.readContract { buffer := [10, 20], pos := 1, innerSocketOps := 0 } [0, 0] =
      (.ok 1, { buffer := [10, 20], pos := 2, innerSocketOps := 0 }, [20, 0])) := by
  exact ⟨⟨rfl, rfl⟩, rfl, rfl⟩

/-- C10: the IOCP `TcpStream::read` is a pure copy out of the stream's
internal buffer: for every stream state and caller buffer it returns `Ok`
with some byte count, and it performs no operation on the underlying socket
(the inner-socket operation count is unchanged; its only socket use,
`self.inner.read(buff)`, is commented out in the source). -/
theorem C10_iocp_read_total_and_socket_free :
    ∀ (s : windows.TcpStream) (buff : List Nat),
      (∃ n, (s.read buff).1 = .ok n) ∧
      (s.read buff).2.1.innerSocketOps = s.innerSocketOps := by
  intro s buff
  unfold windows.TcpStream.read
  split <;> simp

/-- C6: a successful readable registration submits exactly one one-shot
kernel record carrying the token: on epoll a single `EPOLL_CTL_ADD` whose
event has `events = EPOLLIN | EPOLLONESHOT` (`= 0x40000001`) and user data
equal to the token; on kqueue a single `kevent` call whose changelist is the
one record with `filter = EVFILT_READ`, `flags = EV_ADD|EV_ENABLE|EV_ONESHOT`,
`udata = token`, and whose eventlist is empty (size 0). -/
theorem C6_readable_registration_record :
    ((0x40000001 : Int) = Int.lor linux.EPOLLIN linux.EPOLLONESHOT) ∧
    (∀ (epfd streamFd : Int) (t : Token),
      linux.Registrator.register { fd := epfd, is_poll_dead := false } none
          streamFd t Interests.READABLE =
        (.ok (), [linux.Syscall.epoll_ctl epfd linux.EPOLL_CTL_ADD streamFd
          { events := 0x40000001, epoll_data := t }])) ∧
    (∀ (kq streamFd : Int) (t : Token),
      macos.Registrator.register { kq := kq, is_poll_dead := false } none
          streamFd t Interests.READABLE =
        (.ok (), [macos.Syscall.kevent kq
          [{ ident := (streamFd % 2 ^ 64).toNat, filter := macos.EVFILT_READ,
             flags := macos.EV_ADD ||| macos.EV_ENABLE ||| macos.EV_ONESHOT,
             fflags := 0, data := 0, udata := t }] 0 none])) := by
  refine ⟨by decide, ?_, ?_⟩ <;> intros <;> rfl

/-- C7: the IOCP `Selector::select` passes `ul_count = events.capacity()` to
`GetQueuedCompletionStatusEx`, so one call drains at most capacity-many
entries (and the resulting length never exceeds the capacity); OS error 258
(`WAIT_TIMEOUT`) is translated to `Ok` with the vector left at length zero;
every other syscall error code is returned as that OS error. -/
theorem C7_iocp_select_batching_and_timeout :
    (∀ (events : RVec windows.OVERLAPPED_ENTRY)
        (queued : List windows.OVERLAPPED_ENTRY),
      windows.Selector.select events queued none =
        (.ok (), { cap := events.cap, data := queued.take events.cap }) ∧
      (windows.Selector.select events queued none).2.data.length ≤ events.cap) ∧
    (∀ (events : RVec windows.OVERLAPPED_ENTRY)
        (queued : List windows.OVERLAPPED_ENTRY),
      windows.Selector.select events queued (some 258) =
        (.ok (), { cap := events.cap, data := [] })) ∧
    (∀ (events : RVec windows.OVERLAPPED_ENTRY)
        (queued : List windows.OVERLAPPED_ENTRY) (code : Int), code ≠ 258 →
      windows.Selector.select events queued (some code) =
        (.error (.osError code), { cap := events.cap, data := [] })) := by
  refine ⟨?_, ?_, ?_⟩
  · intro events queued
    constructor
    · rfl
    · simp [windows.Selector.select, windows.get_queued_completion_status_ex]
  · intro events queued
    rfl
  · intro events queued code h
    simp [windows.Selector.select, windows.get_queued_completion_status_ex, h]

/-- C7 witness: the non-258 error branch at a concrete input. -/
theorem C7_iocp_select_batching_and_timeout_witness :
    windows.Selector.select { cap := 2, data := [] } [] (some 5) =
      (.error (.osError 5), { cap := 2, data := [] }) :=
  C7_iocp_select_batching_and_timeout.2.2 { cap := 2, data := [] } [] 5 (by decide)

/-- C8 counterexample: the claim says every registration whose interest set
contains WRITABLE is rejected with "unimplemented" on every platform.  On
IOCP, `register` only checks `is_readable` and falls to `unimplemented!()`
in the `else` branch, so a `READABLE | WRITABLE` registration on a live poll
with successful syscalls returns `Ok(())` — the WRITABLE interest is
silently ignored, not rejected. -/
theorem C8_writable_not_rejected_on_iocp :
    (windows.Registrator.register { completion_port := 1, is_poll_dead := false }
        none none 4 [] 7 (Interests.READABLE ||| Interests.WRITABLE)).1 = .ok () ∧
    (windows.Registrator.register { completion_port := 1, is_poll_dead := false }
        none none 4 [] 7 (Interests.READABLE ||| Interests.WRITABLE)).1 ≠
      .panicked "not implemented" := by
  exact ⟨rfl, by decide⟩

/-- C8 amended: a registration whose interest set contains WRITABLE reaches
`unimplemented!()` (a panic with message "not implemented") on epoll and
kqueue — whether or not READABLE is also set, the readable registration
having been submitted first when it is; on IOCP this happens only when
READABLE is absent, and a `READABLE | WRITABLE` registration is accepted
with the WRITABLE interest silently ignored. -/
theorem C8_writable_unimplemented_amended :
    (∀ (epfd streamFd : Int) (t : Token) (i : Interests),
      i.is_writable = true →
      (linux.Registrator.register { fd := epfd, is_poll_dead := false } none
        streamFd t i).1 = .panicked "not implemented") ∧
    (∀ (kq streamFd : Int) (t : Token) (i : Interests),
      i.is_writable = true →
      (macos.Registrator.register { kq := kq, is_poll_dead := false } none
        streamFd t i).1 = .panicked "not implemented") ∧
    (∀ (port socket : Int) (ops : List windows.Operation) (t : Token)
        (i : Interests),
      i.is_writable = true → i.is_readable = false →
      (windows.Registrator.register { completion_port := port, is_poll_dead := false }
        none none socket ops t i).1 = .panicked "not implemented") ∧
    (∀ (port socket : Int) (ops : List windows.Operation) (t : Token),
      (windows.Registrator.register { completion_port := port, is_poll_dead := false }
        none none socket ops t (Interests.READABLE ||| Interests.WRITABLE)).1 = .ok ()) := by
  refine ⟨?_, ?_, ?_, ?_⟩
  · intro epfd streamFd t i hw
    by_cases hr : i.is_readable = true <;>
      simp [linux.Registrator.register, hr, hw]
  · intro kq streamFd t i hw
    by_cases hr : i.is_readable = true <;>
      simp [macos.Registrator.register, hr, hw]
  · intro port socket ops t i hw hr
    simp [windows.Registrator.register, hr]
  · intro port socket ops t
    rfl

/-- C8 witness: concrete instantiations of each amended case. -/
theorem C8_writable_unimplemented_amended_witness :
    (linux.Registrator.register { fd := 1, is_poll_dead := false } none 3 7
      Interests.WRITABLE).1 = .panicked "not implemented" ∧
    (macos.Registrator.register { kq := 1, is_poll_dead := false } none 3 7
      Interests.WRITABLE).1 = .panicked "not implemented" ∧
    (windows.Registrator.register { completion_port := 1, is_poll_dead := false }
      none none 3 [] 7 Interests.WRITABLE).1 = .panicked "not implemented" :=
  ⟨C8_writable_unimplemented_amended.1 1 3 7 Interests.WRITABLE (by decide),
   C8_writable_unimplemented_amended.2.1 1 3 7 Interests.WRITABLE (by decide),
   C8_writable_unimplemented_amended.2.2.1 1 3 [] 7 Interests.WRITABLE (by decide)
     (by decide)⟩

/-- C1: every event delivered for a registration made with token `t` reads
back `id() = t`.  On epoll, every kernel registration record produced by a
`Registrator::register` call with token `t` carries `t` in its user-data
word, and delivery echoes that word into the `Event` that `id()` reads.  On
kqueue, every changelist entry submitted by `register` carries `udata = t`,
which delivery echoes and `id()` reads.  On IOCP, every `Operation` record
pushed by `register` stores `t`, and the completion entry pointing at it
yields `id() = t`. -/
theorem C1_event_id_equals_registration_token :
    (∀ (r : linux.Registrator) (ctlRes : Option Int) (streamFd : Int)
        (t : Token) (i : Interests) (reg : linux.EpollReg) (bits : Nat),
      reg ∈ linux.applyCalls (r.register ctlRes streamFd t i).2 [] →
      (linux.epollDeliver reg bits).id = t) ∧
    (∀ (r : macos.Registrator) (kevRes : Option Int) (streamFd : Int)
        (t : Token) (i : Interests) (c : macos.Syscall) (ev : macos.Kevent)
        (kf kff : Nat) (kd : Int),
      c ∈ (r.register kevRes streamFd t i).2 → ev ∈ c.changelist →
      (macos.keventDeliver ev kf kff kd).id = t) ∧
    (∀ (r : windows.Registrator) (cipRes recvRes : Option Int) (socket : Int)
        (ops : List windows.Operation) (t : Token) (i : Interests)
        (op : windows.Operation) (b : Nat),
      op ∈ ((r.register cipRes recvRes socket ops t i).2.1).drop ops.length →
      (windows.OVERLAPPED_ENTRY.mk (some op) b).id = t) := by
  refine ⟨?_, ?_, ?_⟩
  · intro r ctlRes streamFd t i reg bits h
    by_cases hd : r.is_poll_dead <;>
      by_cases hr : i.is_readable <;>
        by_cases hw : i.is_writable <;>
          cases ctlRes <;>
            simp [linux.Registrator.register, hd, hr, hw, linux.applyCalls] at h <;>
              simp [h, linux.epollDeliver, linux.Event.id, linux.Event.data,
                linux.Event.new]
  · intro r kevRes streamFd t i c ev kf kff kd hc hev
    by_cases hd : r.is_poll_dead <;>
      by_cases hr : i.is_readable <;>
        by_cases hw : i.is_writable <;>
          cases kevRes <;>
            simp [macos.Registrator.register, hd, hr, hw] at hc <;>
              subst hc <;>
                simp [macos.Syscall.changelist] at hev <;>
                  simp [hev, macos.keventDeliver, macos.Kevent.id,
                    macos.Kevent.new_read_event]
  · intro r cipRes recvRes socket ops t i op b h
    by_cases hd : r.is_poll_dead <;>
      by_cases hr : i.is_readable <;>
        cases cipRes <;>
          cases recvRes <;>
            simp [windows.Registrator.register, hd, hr, windows.Operation.new] at h <;>
              simp [h, windows.OVERLAPPED_ENTRY.id]

/-- C1 witness: a concrete registration with token 42 on each platform whose
delivered event reads back id 42. -/
theorem C1_event_id_equals_registration_token_witness :
    (linux.epollDeliver { fd := 7, mask := 0x40000001, data := 42 } 1).id = 42 ∧
    (macos.keventDeliver (macos.Kevent.new_read_event 7 42) 0x15 0 0).id = 42 ∧
    (windows.OVERLAPPED_ENTRY.mk (some { token := 42 }) 9).id = 42 := by
  refine ⟨?_, ?_, ?_⟩
  · exact C1_event_id_equals_registration_token.1
      { fd := 3, is_poll_dead := false } none 7 42 Interests.READABLE
      { fd := 7, mask := 0x40000001, data := 42 } 1 (by decide)
  · exact C1_event_id_equals_registration_token.2.1
      { kq := 3, is_poll_dead := false } none 7 42 Interests.READABLE
      (macos.Syscall.kevent 3 [macos.Kevent.new_read_event 7 42] 0 none)
      (macos.Kevent.new_read_event 7 42) 0x15 0 0 (by decide) (by decide)
  · exact C1_event_id_equals_registration_token.2.2
      { completion_port := 3, is_poll_dead := false } none none 7 [] 42
      Interests.READABLE { token := 42 } 9 (by decide)

/-- C9: the synthetic wake record posted by a successful `close_loop` carries
user data 0: on epoll the eventfd is registered with an event whose user-data
word is 0, on kqueue the wakeup kevent has `udata = 0`; delivery echoes that
word, so the wake event's `id()` is 0 — the same `id()` as a delivered event
for a registration made with token 0, making the two indistinguishable by
`id()`. -/
theorem C9_wake_event_indistinguishable_from_token_zero :
    (∀ (epfd wakeFd streamFd : Int) (ctlRes : Option Int) (bits bits2 : Nat)
        (reg reg0 : linux.EpollReg),
      reg ∈ linux.applyCalls
        ((linux.Registrator.close_loop { fd := epfd, is_poll_dead := false }
          (.ok wakeFd) ctlRes)).2.2 [] →
      reg0 ∈ linux.applyCalls
        ((linux.Registrator.register { fd := epfd, is_poll_dead := false } none
          streamFd 0 Interests.READABLE)).2 [] →
      (linux.epollDeliver reg bits).id = 0 ∧
      (linux.epollDeliver reg bits).id = (linux.epollDeliver reg0 bits2).id) ∧
    (macos.Kevent.new_wakeup_event.udata = 0 ∧
     ∀ (kf kff : Nat) (kd : Int) (streamFd : Int) (kf2 kff2 : Nat) (kd2 : Int),
      (macos.keventDeliver macos.Kevent.new_wakeup_event kf kff kd).id = 0 ∧
      (macos.keventDeliver macos.Kevent.new_wakeup_event kf kff kd).id =
        (macos.keventDeliver (macos.Kevent.new_read_event streamFd 0) kf2 kff2 kd2).id) := by
  constructor
  · intro epfd wakeFd streamFd ctlRes bits bits2 reg reg0 h1 h2
    cases ctlRes <;>
      simp [linux.Registrator.close_loop, linux.applyCalls, linux.Event.new] at h1 <;>
        simp [linux.Registrator.register, linux.applyCalls, linux.Event.new] at h2 <;>
          simp [h1, h2, linux.epollDeliver, linux.Event.id, linux.Event.data]
  · refine ⟨rfl, ?_⟩
    intro kf kff kd streamFd kf2 kff2 kd2
    exact ⟨rfl, rfl⟩

/-- C9 witness: the wake record and a token-0 read registration, delivered,
both read back id 0. -/
theorem C9_wake_event_indistinguishable_from_token_zero_witness :
    (linux.epollDeliver { fd := 9, mask := 1, data := 0 } 1).id = 0 ∧
    (linux.epollDeliver { fd := 9, mask := 1, data := 0 } 1).id =
      (linux.epollDeliver { fd := 3, mask := 0x40000001, data := 0 } 1).id :=
  C9_wake_event_indistinguishable_from_token_zero.1 2 9 3 none 1 1
    { fd := 9, mask := 1, data := 0 } { fd := 3, mask := 0x40000001, data := 0 }
    (by decide) (by decide)

/-- Once the shared flag is `true`, a run of `close_loop` calls performs no
syscall at all and leaves the flag `true` (epoll backend). -/
lemma linux_close_loop_seq_dead (epfd : Int) :
    ∀ oracles, linux.close_loop_seq { fd := epfd, is_poll_dead := true } oracles =
      (true, []) := by
  intro oracles
  induction oracles with
  | nil => rfl
  | cons o rest ih =>
    simp [linux.close_loop_seq, linux.Registrator.close_loop, ih]

/-- Once the shared flag is `true`, a run of `close_loop` calls performs no
syscall at all and leaves the flag `true` (IOCP backend). -/
lemma windows_close_loop_seq_dead (port : Int) :
    ∀ oracles, windows.close_loop_seq { completion_port := port, is_poll_dead := true }
      oracles = (true, []) := by
  intro oracles
  induction oracles with
  | nil => rfl
  | cons o rest ih =>
    simp [windows.close_loop_seq, windows.Registrator.close_loop, ih]

/-- C3: `close_loop` is first-caller-wins.  When the shared `poll_dead` flag
is `false`, the call flips it to `true`, posts exactly one synthetic wake
(on epoll: one `eventfd` creation plus its `EPOLL_CTL_ADD`; on IOCP: one
`PostQueuedCompletionStatus`) and returns `Ok` when the wake syscalls
succeed; every call made while the flag is already `true` returns the
"interrupted" error and performs no syscall; and across any sequence of
`close_loop` calls starting from a live poll, at most one wake is ever
posted. -/
theorem C3_close_loop_first_caller_wins :
    (∀ (epfd wakeFd : Int),
      linux.Registrator.close_loop { fd := epfd, is_poll_dead := false }
          (.ok wakeFd) none =
        (.ok (), true, [linux.Syscall.eventfd 1 0,
          linux.Syscall.epoll_ctl epfd linux.EPOLL_CTL_ADD wakeFd
            { events := 1, epoll_data := 0 }])) ∧
    (∀ (epfd : Int) (efdRes : Except Int Int) (ctlRes : Option Int),
      linux.Registrator.close_loop { fd := epfd, is_poll_dead := true }
          efdRes ctlRes =
        (.err (.interrupted "Poll instance closed."), true, [])) ∧
    (∀ (epfd : Int) (oracles : List (Except Int Int × Option Int)),
      linux.countWakeCalls
        (linux.close_loop_seq { fd := epfd, is_poll_dead := false } oracles).2 ≤ 1) ∧
    (∀ (port : Int),
      windows.Registrator.close_loop { completion_port := port, is_poll_dead := false }
          none =
        (.ok (), true, [windows.Syscall.postQueuedCompletionStatus port 0 0])) ∧
    (∀ (port : Int) (postRes : Option Int),
      windows.Registrator.close_loop { completion_port := port, is_poll_dead := true }
          postRes =
        (.err (.interrupted "Poll instance is dead."), true, [])) ∧
    (∀ (port : Int) (oracles : List (Option Int)),
      windows.countWakeCalls
        (windows.close_loop_seq { completion_port := port, is_poll_dead := false }
          oracles).2 ≤ 1) := by
  refine ⟨fun epfd wakeFd => rfl, fun epfd efdRes ctlRes => rfl, ?_,
    fun port => rfl, fun port postRes => rfl, ?_⟩
  · intro epfd oracles
    cases oracles with
    | nil => simp [linux.close_loop_seq, linux.countWakeCalls]
    | cons o rest =>
      obtain ⟨efdRes, ctlRes⟩ := o
      cases efdRes <;> cases ctlRes <;>
        simp [linux.close_loop_seq, linux.Registrator.close_loop,
          linux_close_loop_seq_dead, linux.countWakeCalls]
  · intro port oracles
    cases oracles with
    | nil => simp [windows.close_loop_seq, windows.countWakeCalls]
    | cons o rest =>
      cases o <;>
        simp [windows.close_loop_seq, windows.Registrator.close_loop,
          windows_close_loop_seq_dead, windows.countWakeCalls]

end Minimio
